import Mathlib

/-!
Verification development for the MP3 Reduce Tool (reduce-v0.3.0.py).

The Python source is shallowly embedded: every pure decision made by the
program (eligibility classification, safe-delete predicate chain, worker
success computation, CSV row construction, result collection) is modelled
as an executable Lean function over explicit inputs standing for the
filesystem facts and external-process observations the Python code reads.
Python floats are modelled as rationals, byte sizes and bitrates as
integers, modification times as rationals (POSIX timestamps).
-/

namespace Mp3Reduce

/-- Characters of a lowercase needle occur as a contiguous block at the
head of the haystack.  Models the start of a Python substring test. -/
def startsWith : List Char → List Char → Bool
  | [], _ => true
  | _ :: _, [] => false
  | n :: ns, h :: hs => (n == h) && startsWith ns hs

/-- Contiguous-substring containment on character lists: models the
Python expression needle in haystack on strings. -/
def containsSeq (needle : List Char) : List Char → Bool
  | [] => needle.isEmpty
  | c :: rest => startsWith needle (c :: rest) || containsSeq needle rest

/-- The derived-name marker the tool appends to reduced files. -/
def markerChars : List Char := "_reduced".data

/-- Models the test at line 430 of reduce-v0.3.0.py:
"_reduced" in mp3.name.lower() — a case-insensitive substring match. -/
def containsMarker (name : String) : Bool :=
  containsSeq markerChars (name.data.map Char.toLower)

/-- Result of a successful ffprobe invocation, as the code keeps it
(dict with bitrate, duration, size): bitrate in bits per second,
duration in seconds (Python float, modelled as a rational), size in
bytes (from path.stat().st_size). -/
structure ProbeInfo where
  bitrate : ℤ
  duration : ℚ
  size : ℤ
deriving DecidableEq

/-- Python int() applied to a float: truncation toward zero. -/
def pyInt (q : ℚ) : ℤ :=
  if q < 0 then ⌈q⌉ else ⌊q⌋

/-- TARGET_BITRATE constant, line 390. -/
def TARGET_BITRATE : ℤ := 128000

/-- MIN_SAVINGS_PERCENT constant, line 391. -/
def MIN_SAVINGS_PERCENT : ℚ := 20

/-- estimated_size = int((TARGET_BITRATE * duration) / 8), line 480. -/
def estimatedSize (duration : ℚ) : ℤ :=
  pyInt ((TARGET_BITRATE : ℚ) * duration / 8)

/-- savings_bytes = size - estimated_size, line 481. -/
def savingsBytes (size : ℤ) (duration : ℚ) : ℤ :=
  size - estimatedSize duration

/-- savings_percent = (savings_bytes / size) * 100, line 498 — computed
from the original size. -/
def savingsPercent (size : ℤ) (duration : ℚ) : ℚ :=
  ((savingsBytes size duration : ℤ) : ℚ) / (size : ℚ) * 100

/-- The skip reasons of the preview loop, in program order.  The later
reasons carry the values the corresponding CSV rows record (bitrate and
size appear in the rows for reasons 5-7; the below-threshold reason
records the computed percent, line 501). -/
inductive SkipReason where
  | reducedVersionExists
  | outsideTimeWindow
  | alreadyReduced
  | noMetadata
  | alreadyAtOrBelowTarget (bitrate size : ℤ)
  | wouldNotShrink (bitrate size : ℤ)
  | belowThreshold (bitrate size : ℤ) (pct : ℚ)
deriving DecidableEq

/-- Classification of one scanned file in the preview loop. -/
inductive Outcome where
  | pass (bitrate size estSize savings : ℤ) (pct : ℚ)
  | skip (r : SkipReason)
deriving DecidableEq

/-- Whether a classification is a PASS. -/
def Outcome.isPass : Outcome → Bool
  | .pass _ _ _ _ _ => true
  | .skip _ => false

/-- The time-window test, line 415: cutoff is not None and the file
modification time is strictly before the cutoff. -/
def timeMatch (cutoff : Option ℚ) (mtime : ℚ) : Bool :=
  match cutoff with
  | none => false
  | some c => decide (mtime < c)

/-- The eligibility classification performed by the preview loop
(lines 398-546 of reduce-v0.3.0.py), as a pure function of the facts the
loop reads: the file name, whether a derived sibling exists on disk
(reduced_exists), the optional cutoff time, the file modification time,
and the probe result (None on probe failure). -/
def evaluate (name : String) (siblingExists : Bool) (cutoff : Option ℚ)
    (mtime : ℚ) (probe : Option ProbeInfo) : Outcome :=
  if siblingExists then Outcome.skip SkipReason.reducedVersionExists
  else if timeMatch cutoff mtime then Outcome.skip SkipReason.outsideTimeWindow
  else if containsMarker name then Outcome.skip SkipReason.alreadyReduced
  else
    match probe with
    | none => Outcome.skip SkipReason.noMetadata
    | some info =>
      if info.bitrate ≤ TARGET_BITRATE then
        Outcome.skip (SkipReason.alreadyAtOrBelowTarget info.bitrate info.size)
      else if savingsBytes info.size info.duration ≤ 0 then
        Outcome.skip (SkipReason.wouldNotShrink info.bitrate info.size)
      else if savingsPercent info.size info.duration < MIN_SAVINGS_PERCENT then
        Outcome.skip (SkipReason.belowThreshold info.bitrate info.size
          (savingsPercent info.size info.duration))
      else
        Outcome.pass info.bitrate info.size (estimatedSize info.duration)
          (savingsBytes info.size info.duration)
          (savingsPercent info.size info.duration)

/-- Path.stem: the name up to its last dot, except that a name whose only
dot is the leading character (such as a file literally named .mp3), or
whose last dot is the final character, has no suffix and is its own
stem — matching pathlib's 0 < rfind < len - 1 rule. -/
def stemChars (cs : List Char) : List Char :=
  let rev := cs.reverse
  if rev.head? = some '.' then cs
  else
    match rev.dropWhile (fun c => c != '.') with
    | [] => cs
    | [_] => cs
    | _ :: rest => rest.reverse

/-- String form of the stem. -/
def stemOf (s : String) : String := String.mk (stemChars s.data)

/-- src.with_name(src.stem + "_reduced.mp3"), lines 94 and 187. -/
def derivedName (src : String) : String := stemOf src ++ "_reduced.mp3"

/-- One entry of reducible_files (the fields the worker consumes). -/
structure ReductionTask where
  path : String
  savings_bytes : ℤ
  savings_percent : ℚ
deriving DecidableEq

/-- The dict returned by reduce_worker, lines 207-213. -/
structure ReductionResult where
  src : String
  dst : String
  savings_bytes : ℤ
  savings_percent : ℚ
  success : Bool
deriving DecidableEq

/-- success = (result.returncode == 0) and dst.exists() and
dst.stat().st_size > 0, line 205. -/
def workerSuccess (returncode : ℤ) (dstExists : Bool) (dstSize : ℤ) : Bool :=
  (returncode == 0) && dstExists && decide (0 < dstSize)

/-- reduce_worker (lines 185-213) as a function of the task and of the
observations of the external encoder run: its exit code, whether the
destination file exists afterwards, and its size. -/
def reduce_worker (item : ReductionTask) (returncode : ℤ) (dstExists : Bool)
    (dstSize : ℤ) : ReductionResult :=
  { src := item.path
    dst := derivedName item.path
    savings_bytes := item.savings_bytes
    savings_percent := item.savings_percent
    success := workerSuccess returncode dstExists dstSize }

/-- What one submitted future delivers to the collection loop: either the
worker returned a ReductionResult, or the worker execution crashed, in
which case future.result() re-raises the exception in the main process. -/
inductive WorkerOutcome where
  | ok (r : ReductionResult)
  | crashed
deriving DecidableEq

/-- The result-collection loop of main (lines 626-632), over the futures
in completion order.  result = future.result() raises when the worker
crashed; there is no try/except around it, so the loop — and the run —
aborts (modelled as Except.error). -/
def collectResults : List WorkerOutcome → Except Unit (List ReductionResult)
  | [] => Except.ok []
  | WorkerOutcome.ok r :: rest =>
    match collectResults rest with
    | Except.ok rs => Except.ok (r :: rs)
    | Except.error e => Except.error e
  | WorkerOutcome.crashed :: _ => Except.error ()

/-- The observable stages of one ffprobe_audio_info call (lines 134-179):
the subprocess call may raise (launch failure), the output may be blank,
json.loads or the int()/float() field conversions may raise, or the
output parses with each of the two fields optionally present. -/
inductive ProbeRaw where
  | launchFailure
  | emptyOutput
  | unparsable
  | parsed (bitrate : Option ℤ) (duration : Option ℚ) (size : ℤ)
deriving DecidableEq

/-- ffprobe_audio_info: every failure stage returns None (the whole body
is wrapped in try/except returning None); a parsed output with a missing
bitrate or duration field also returns None (line 173); otherwise the
info dict is returned. -/
def ffprobe_audio_info : ProbeRaw → Option ProbeInfo
  | ProbeRaw.launchFailure => none
  | ProbeRaw.emptyOutput => none
  | ProbeRaw.unparsable => none
  | ProbeRaw.parsed b d s =>
    match b, d with
    | some bv, some dv => some { bitrate := bv, duration := dv, size := s }
    | some _, none => none
    | none, _ => none

/-- The decision recorded by the Safe-Delete Verifier. -/
inductive DeleteSkipReason where
  | noReducedFile
  | reducedSizeZero
  | reducedNotSmaller
  | reducedNotNewer
  | reducedFailedProbe
deriving DecidableEq

/-- Outcome of verify_and_delete: either the original was unlinked, or it
was kept with the reason logged at the first failing predicate. -/
inductive DeleteOutcome where
  | deleted
  | skipped (r : DeleteSkipReason)
deriving DecidableEq

/-- verify_and_delete (lines 219-246) as a function of the filesystem
facts it reads: whether the reduced file exists, the two sizes, the two
modification times, and the result of re-probing the reduced file.  The
original file is unlinked only on the DeleteOutcome.deleted branch. -/
def verify_and_delete (reducedExists : Bool) (reducedSize origSize : ℤ)
    (reducedMtime origMtime : ℚ) (reprobe : Option ProbeInfo) : DeleteOutcome :=
  if !reducedExists then DeleteOutcome.skipped DeleteSkipReason.noReducedFile
  else if reducedSize ≤ 0 then DeleteOutcome.skipped DeleteSkipReason.reducedSizeZero
  else if origSize ≤ reducedSize then DeleteOutcome.skipped DeleteSkipReason.reducedNotSmaller
  else if reducedMtime ≤ origMtime then DeleteOutcome.skipped DeleteSkipReason.reducedNotNewer
  else
    match reprobe with
    | none => DeleteOutcome.skipped DeleteSkipReason.reducedFailedProbe
    | some _ => DeleteOutcome.deleted

/-- The decimal digit character for k mod 10. -/
def digitChar (k : ℕ) : Char := Char.ofNat (48 + k % 10)

/-- Exactly two decimal digit characters: tens digit then units digit.
For m < 100 this is the zero-padded two-digit rendering of m. -/
def twoDigits (m : ℕ) : String := String.mk [digitChar (m / 10), digitChar m]

/-- Round a rational to the nearest integer, ties to even — the rounding
Python applies when formatting with two decimal places. -/
def roundHalfEven (q : ℚ) : ℤ :=
  let f := ⌊q⌋
  let r := q - (f : ℚ)
  if r < 1 / 2 then f
  else if 1 / 2 < r then f + 1
  else f + f % 2

/-- Python f-string formatting with :.2f for the nonnegative percent
values this program formats: the integer part, a dot, then exactly two
decimal digits of the value rounded to hundredths. -/
def fmt2 (q : ℚ) : String :=
  let n := roundHalfEven (q * 100)
  toString (n / 100) ++ "." ++ twoDigits (n % 100).toNat

/-- One row of csv_rows: all eight fields as the strings the csv module
writes (the code stores Python ints in some fields; csv.writer renders
them with str, modelled here as toString). -/
structure CsvRow where
  filename : String
  bitrate : String
  size_bytes : String
  estimated_size_bytes : String
  savings_bytes : String
  savings_percent : String
  action : String
  skip_reason : String
deriving DecidableEq

/-- The row appended by the preview loop for each classification,
reproducing the per-branch dict literals of lines 400-525: rows for the
first four skip reasons leave bitrate and size empty, rows for the later
skip reasons record the numeric bitrate and size; the three estimate
fields hold the literal string "skip" on every SKIP row; the PASS row
records all numbers with the percent formatted to two decimals. -/
def rowOf (name : String) : Outcome → CsvRow
  | Outcome.skip SkipReason.reducedVersionExists =>
    ⟨name, "", "", "skip", "skip", "skip", "SKIP", "_reduced version exists"⟩
  | Outcome.skip SkipReason.outsideTimeWindow =>
    ⟨name, "", "", "skip", "skip", "skip", "SKIP", "outside time window"⟩
  | Outcome.skip SkipReason.alreadyReduced =>
    ⟨name, "", "", "skip", "skip", "skip", "SKIP", "already reduced"⟩
  | Outcome.skip SkipReason.noMetadata =>
    ⟨name, "", "", "skip", "skip", "skip", "SKIP", "no metadata"⟩
  | Outcome.skip (SkipReason.alreadyAtOrBelowTarget b s) =>
    ⟨name, toString b, toString s, "skip", "skip", "skip", "SKIP",
      "already 128 kbps or lower"⟩
  | Outcome.skip (SkipReason.wouldNotShrink b s) =>
    ⟨name, toString b, toString s, "skip", "skip", "skip", "SKIP",
      "would not shrink"⟩
  | Outcome.skip (SkipReason.belowThreshold b s p) =>
    ⟨name, toString b, toString s, "skip", "skip", "skip", "SKIP",
      "below threshold (" ++ fmt2 p ++ "%)"⟩
  | Outcome.pass b s est sav p =>
    ⟨name, toString b, toString s, toString est, toString sav, fmt2 p,
      "PASS", ""⟩

/-- The row appended after each collected reduction result
(lines 637-661): numeric fields come from the file_info entry when the
source path is found there; otherwise bitrate, size and estimated size
are blank while the savings-bytes and percent fields fall back to the
numeric values carried by the result itself (line 649-650); the percent
is formatted to two decimals in both cases. -/
def reduceRow (filename : String) (info : Option (ℤ × ℤ × ℤ × ℤ × ℚ))
    (resSav : ℤ) (resPct : ℚ) : CsvRow :=
  match info with
  | some (b, s, est, sav, p) =>
    ⟨filename, toString b, toString s, toString est, toString sav, fmt2 p,
      "REDUCE", ""⟩
  | none =>
    ⟨filename, "", "", "", toString resSav, fmt2 resPct, "REDUCE", ""⟩

/-- The CSV header, lines 104-113. -/
def csvColumns : List String :=
  ["filename", "bitrate", "size_bytes", "estimated_size_bytes",
   "savings_bytes", "savings_percent", "action", "skip_reason"]

/-- The cells written for one row, lines 119-128. -/
def rowCells (r : CsvRow) : List String :=
  [r.filename, r.bitrate, r.size_bytes, r.estimated_size_bytes,
   r.savings_bytes, r.savings_percent, r.action, r.skip_reason]

/-- write_csv (lines 100-128): with an empty row list it returns before
opening the file, so no file is created (modelled as none); otherwise the
file contents are the header row followed by one line per row. -/
def write_csv (rows : List CsvRow) : Option (List (List String)) :=
  if rows.isEmpty then none
  else some (csvColumns :: rows.map rowCells)

/-- How far main gets through its setup phase (lines 263-398): the tool
detection runs first and a RuntimeError returns immediately; the
directory existence check runs before the scan; only then does the
rglob scan begin. -/
inductive RunOutcome where
  | envError
  | dirNotFound
  | proceeded
deriving DecidableEq

/-- The setup phase of main as a function of whether both external tools
were found on PATH and whether the chosen directory exists. -/
def mainSetup (toolsFound dirFound : Bool) : RunOutcome :=
  if !toolsFound then RunOutcome.envError
  else if !dirFound then RunOutcome.dirNotFound
  else RunOutcome.proceeded

/-- C1: For every scanned .mp3 file, eligibility is decided by the first
matching rule of a fixed order, short-circuiting, and yields exactly one
classification: (1) derived sibling exists, (2) time filter active and
modification time before cutoff, (3) filename carries the derived-name
marker, (4) probe result null, (5) bitrate at or below target,
(6) savings not positive, (7) savings percent below threshold with the
percent recorded in the reason, (8) otherwise PASS with bitrate, size,
estimated size and savings populated. -/
theorem evaluate_decision_order (name : String) (sib : Bool)
    (cutoff : Option ℚ) (mtime : ℚ) (probe : Option ProbeInfo) :
    (sib = true →
      evaluate name sib cutoff mtime probe =
        Outcome.skip SkipReason.reducedVersionExists) ∧
    (sib = false → timeMatch cutoff mtime = true →
      evaluate name sib cutoff mtime probe =
        Outcome.skip SkipReason.outsideTimeWindow) ∧
    (sib = false → timeMatch cutoff mtime = false →
      containsMarker name = true →
      evaluate name sib cutoff mtime probe =
        Outcome.skip SkipReason.alreadyReduced) ∧
    (sib = false → timeMatch cutoff mtime = false →
      containsMarker name = false → probe = none →
      evaluate name sib cutoff mtime probe =
        Outcome.skip SkipReason.noMetadata) ∧
    (∀ info : ProbeInfo, sib = false → timeMatch cutoff mtime = false →
      containsMarker name = false → probe = some info →
      info.bitrate ≤ TARGET_BITRATE →
      evaluate name sib cutoff mtime probe =
        Outcome.skip (SkipReason.alreadyAtOrBelowTarget info.bitrate info.size)) ∧
    (∀ info : ProbeInfo, sib = false → timeMatch cutoff mtime = false →
      containsMarker name = false → probe = some info →
      TARGET_BITRATE < info.bitrate →
      savingsBytes info.size info.duration ≤ 0 →
      evaluate name sib cutoff mtime probe =
        Outcome.skip (SkipReason.wouldNotShrink info.bitrate info.size)) ∧
    (∀ info : ProbeInfo, sib = false → timeMatch cutoff mtime = false →
      containsMarker name = false → probe = some info →
      TARGET_BITRATE < info.bitrate →
      0 < savingsBytes info.size info.duration →
      savingsPercent info.size info.duration < MIN_SAVINGS_PERCENT →
      evaluate name sib cutoff mtime probe =
        Outcome.skip (SkipReason.belowThreshold info.bitrate info.size
          (savingsPercent info.size info.duration))) ∧
    (∀ info : ProbeInfo, sib = false → timeMatch cutoff mtime = false →
      containsMarker name = false → probe = some info →
      TARGET_BITRATE < info.bitrate →
      0 < savingsBytes info.size info.duration →
      MIN_SAVINGS_PERCENT ≤ savingsPercent info.size info.duration →
      evaluate name sib cutoff mtime probe =
        Outcome.pass info.bitrate info.size (estimatedSize info.duration)
          (savingsBytes info.size info.duration)
          (savingsPercent info.size info.duration)) := by
  refine ⟨?_, ?_, ?_, ?_, ?_, ?_, ?_, ?_⟩
  · intro h1
    subst h1
    simp [evaluate]
  · intro h1 h2
    subst h1
    simp [evaluate, h2]
  · intro h1 h2 h3
    subst h1
    simp [evaluate, h2, h3]
  · intro h1 h2 h3 h4
    subst h1
    subst h4
    simp [evaluate, h2, h3]
  · intro info h1 h2 h3 h4 h5
    subst h1
    subst h4
    simp [evaluate, h2, h3, h5]
  · intro info h1 h2 h3 h4 h5 h6
    subst h1
    subst h4
    simp [evaluate, h2, h3, not_le.mpr h5, h6]
  · intro info h1 h2 h3 h4 h5 h6 h7
    subst h1
    subst h4
    simp [evaluate, h2, h3, not_le.mpr h5, not_le.mpr h6, h7]
  · intro info h1 h2 h3 h4 h5 h6 h7
    subst h1
    subst h4
    simp [evaluate, h2, h3, not_le.mpr h5, not_le.mpr h6, not_lt.mpr h7]

/-- Witness for C1: a 320 kbps, 5 MB, 180-second file with no derived
sibling, no time filter and no marker in its name is classified PASS. -/
theorem evaluate_decision_order_witness :
    evaluate "a.mp3" false none 0
        (some { bitrate := 320000, duration := 180, size := 5000000 }) =
      Outcome.pass 320000 5000000 (estimatedSize 180)
        (savingsBytes 5000000 180) (savingsPercent 5000000 180) := by
  have h := evaluate_decision_order "a.mp3" false none 0
    (some { bitrate := 320000, duration := 180, size := 5000000 })
  exact h.2.2.2.2.2.2.2 { bitrate := 320000, duration := 180, size := 5000000 }
    rfl rfl (by decide) rfl (by decide)
    (by norm_num [savingsBytes, estimatedSize, pyInt, TARGET_BITRATE])
    (by norm_num [savingsPercent, savingsBytes, estimatedSize, pyInt,
      TARGET_BITRATE, MIN_SAVINGS_PERCENT])

/-- C2: the Safe-Delete Verifier removes the original only if all five
predicates hold — derived exists, derived size strictly positive, derived
size strictly smaller than the original (equal sizes refuse), derived
modification time strictly later, and the re-probe succeeds — checked in
this order with short-circuit, logging the reason of the first failing
predicate; on any failure the original is kept. -/
theorem verify_and_delete_safety (ex : Bool) (rs os : ℤ) (rm om : ℚ)
    (p : Option ProbeInfo) :
    (verify_and_delete ex rs os rm om p = DeleteOutcome.deleted ↔
      ex = true ∧ 0 < rs ∧ rs < os ∧ om < rm ∧ p ≠ none) ∧
    (ex = false →
      verify_and_delete ex rs os rm om p =
        DeleteOutcome.skipped DeleteSkipReason.noReducedFile) ∧
    (ex = true → rs ≤ 0 →
      verify_and_delete ex rs os rm om p =
        DeleteOutcome.skipped DeleteSkipReason.reducedSizeZero) ∧
    (ex = true → 0 < rs → os ≤ rs →
      verify_and_delete ex rs os rm om p =
        DeleteOutcome.skipped DeleteSkipReason.reducedNotSmaller) ∧
    (ex = true → 0 < rs → rs = os →
      verify_and_delete ex rs os rm om p =
        DeleteOutcome.skipped DeleteSkipReason.reducedNotSmaller) ∧
    (ex = true → 0 < rs → rs < os → rm ≤ om →
      verify_and_delete ex rs os rm om p =
        DeleteOutcome.skipped DeleteSkipReason.reducedNotNewer) ∧
    (ex = true → 0 < rs → rs < os → om < rm → p = none →
      verify_and_delete ex rs os rm om p =
        DeleteOutcome.skipped DeleteSkipReason.reducedFailedProbe) := by
  refine ⟨?_, ?_, ?_, ?_, ?_, ?_, ?_⟩
  · constructor
    · intro hdel
      cases ex with
      | false => simp [verify_and_delete] at hdel
      | true =>
        simp only [verify_and_delete, Bool.not_true, Bool.false_eq_true,
          if_false] at hdel
        split_ifs at hdel with h1 h2 h3
        · cases p with
          | none => simp at hdel
          | some info =>
            exact ⟨rfl, not_le.mp h1, not_le.mp h2, not_le.mp h3, by simp⟩
    · rintro ⟨hex, h1, h2, h3, h4⟩
      subst hex
      cases p with
      | none => exact absurd rfl h4
      | some info =>
        simp [verify_and_delete, not_le.mpr h1, not_le.mpr h2, not_le.mpr h3]
  · intro hex
    subst hex
    simp [verify_and_delete]
  · intro hex h1
    subst hex
    simp [verify_and_delete, h1]
  · intro hex h1 h2
    subst hex
    simp [verify_and_delete, not_le.mpr h1, h2]
  · intro hex h1 h2
    subst hex
    simp [verify_and_delete, not_le.mpr h1, le_of_eq h2.symm]
  · intro hex h1 h2 h3
    subst hex
    simp [verify_and_delete, not_le.mpr h1, not_le.mpr h2, h3]
  · intro hex h1 h2 h3 h4
    subst hex
    subst h4
    simp [verify_and_delete, not_le.mpr h1, not_le.mpr h2, not_le.mpr h3]

/-- Witness for C2: with the derived file present, 50 bytes against an
original of 100 bytes, a strictly later modification time and a
successful re-probe, the original is deleted. -/
theorem verify_and_delete_safety_witness :
    verify_and_delete true 50 100 2 1
        (some { bitrate := 128000, duration := 1, size := 50 }) =
      DeleteOutcome.deleted :=
  (verify_and_delete_safety true 50 100 2 1
      (some { bitrate := 128000, duration := 1, size := 50 })).1.mpr
    ⟨rfl, by decide, by decide, by norm_num, by simp⟩

/-- C3 counterexample: with a single submitted task whose worker crashes,
the collection loop re-raises the exception from future.result() and the
run aborts — the code does not surface the crash as a ReductionResult
with success=false, contrary to the claim. -/
theorem collectResults_crash_aborts :
    collectResults [WorkerOutcome.crashed] = Except.error () := rfl

/-- C3 amended: when every worker delivers a result (no crash), the final
result list has exactly one ReductionResult per submitted task; but a
crashed worker makes future.result() raise, aborting the whole
collection with no result list at all. -/
theorem collectResults_spec :
    (∀ outs : List WorkerOutcome,
      (∀ o ∈ outs, o ≠ WorkerOutcome.crashed) →
      ∃ rs, collectResults outs = Except.ok rs ∧ rs.length = outs.length) ∧
    (∀ outs : List WorkerOutcome, WorkerOutcome.crashed ∈ outs →
      collectResults outs = Except.error ()) := by
  constructor
  · intro outs
    induction outs with
    | nil => exact fun _ => ⟨[], rfl, rfl⟩
    | cons o rest ih =>
      intro h
      cases o with
      | crashed => exact absurd rfl (h WorkerOutcome.crashed (List.mem_cons_self _ _))
      | ok r =>
        obtain ⟨rs, hrs, hlen⟩ := ih fun o ho => h o (List.mem_cons_of_mem _ ho)
        exact ⟨r :: rs, by simp [collectResults, hrs], by simp [hlen]⟩
  · intro outs
    induction outs with
    | nil => intro h; cases h
    | cons o rest ih =>
      intro h
      cases o with
      | crashed => rfl
      | ok r =>
        have hrest : WorkerOutcome.crashed ∈ rest := by
          rcases List.mem_cons.mp h with h1 | h1
          · cases h1
          · exact h1
        simp [collectResults, ih hrest]

/-- Witness for C3 amended: one crash-free task yields a result list of
length one. -/
theorem collectResults_spec_witness :
    ∃ rs, collectResults [WorkerOutcome.ok
        { src := "a.mp3", dst := "a_reduced.mp3", savings_bytes := 1,
          savings_percent := 1, success := true }] = Except.ok rs ∧
      rs.length = 1 :=
  collectResults_spec.1 _ (by
    intro o ho
    rw [List.mem_singleton] at ho
    subst ho
    intro hc
    cases hc)

/-- C4: past the bitrate check the code computes
estimated = int(128000 * duration / 8) which equals the floor for the
nonnegative durations ffprobe reports, savings = size - estimated, and
the percent from the original size; on the concrete example of a
10,000,000-byte, 600-second file the outcome is SKIP below threshold at
exactly 4 percent (formatted 4.00). -/
theorem savings_formulas :
    (∀ d : ℚ, 0 ≤ d → estimatedSize d = ⌊(128000 : ℚ) * d / 8⌋) ∧
    (∀ (s : ℤ) (d : ℚ), savingsBytes s d = s - estimatedSize d) ∧
    (∀ (s : ℤ) (d : ℚ),
      savingsPercent s d = ((savingsBytes s d : ℤ) : ℚ) / (s : ℚ) * 100) ∧
    estimatedSize 600 = 9600000 ∧
    savingsBytes 10000000 600 = 400000 ∧
    savingsPercent 10000000 600 = 4 ∧
    fmt2 (savingsPercent 10000000 600) = "4.00" ∧
    evaluate "a.mp3" false none 0
        (some { bitrate := 320000, duration := 600, size := 10000000 }) =
      Outcome.skip (SkipReason.belowThreshold 320000 10000000 4) := by
  have hest : estimatedSize 600 = 9600000 := by
    norm_num [estimatedSize, pyInt, TARGET_BITRATE]
  have hsav : savingsBytes 10000000 600 = 400000 := by
    norm_num [savingsBytes, hest]
  have hpct : savingsPercent 10000000 600 = 4 := by
    norm_num [savingsPercent, hsav]
  refine ⟨?_, ?_, ?_, hest, hsav, hpct, ?_, ?_⟩
  · intro d hd
    have h8 : (0 : ℚ) ≤ 128000 * d / 8 :=
      div_nonneg (mul_nonneg (by norm_num) hd) (by norm_num)
    simp [estimatedSize, pyInt, TARGET_BITRATE, not_lt.mpr h8]
  · intro s d
    rfl
  · intro s d
    rfl
  · rw [hpct]
    norm_num [fmt2, roundHalfEven]
    decide
  · have hm : containsMarker "a.mp3" = false := by decide
    simp [evaluate, hm, timeMatch, TARGET_BITRATE, MIN_SAVINGS_PERCENT,
      hsav, hpct]
    norm_num

/-- Witness for C4: the floor identity applied at duration 600. -/
theorem savings_formulas_witness :
    estimatedSize 600 = ⌊(128000 : ℚ) * 600 / 8⌋ :=
  savings_formulas.1 600 (by norm_num)

/-- C5: the Reduction Worker reports success exactly when the encoder
exit code is 0, the derived file exists, and its size is strictly
positive; a zero exit code alone is not sufficient. -/
theorem worker_success_iff :
    (∀ (item : ReductionTask) (rc : ℤ) (ex : Bool) (sz : ℤ),
      (reduce_worker item rc ex sz).success = true ↔
        rc = 0 ∧ ex = true ∧ 0 < sz) ∧
    (reduce_worker
        { path := "a.mp3", savings_bytes := 1, savings_percent := 1 }
        0 false 0).success = false := by
  constructor
  · intro item rc ex sz
    simp [reduce_worker, workerSuccess, and_assoc]
  · rfl

/-- C6: the Metadata Probe Adapter returns null on every failure class —
process launch failure, blank output, unparsable output, missing bitrate
field, missing duration field — and a null probe result is recovered
locally as SKIP no-metadata by the preview loop. -/
theorem ffprobe_fail_closed :
    ffprobe_audio_info ProbeRaw.launchFailure = none ∧
    ffprobe_audio_info ProbeRaw.emptyOutput = none ∧
    ffprobe_audio_info ProbeRaw.unparsable = none ∧
    (∀ (d : Option ℚ) (s : ℤ),
      ffprobe_audio_info (ProbeRaw.parsed none d s) = none) ∧
    (∀ (b s : ℤ),
      ffprobe_audio_info (ProbeRaw.parsed (some b) none s) = none) ∧
    (∀ (name : String) (cutoff : Option ℚ) (mtime : ℚ),
      timeMatch cutoff mtime = false → containsMarker name = false →
      evaluate name false cutoff mtime none =
        Outcome.skip SkipReason.noMetadata) := by
  refine ⟨rfl, rfl, rfl, fun d s => rfl, fun b s => rfl, ?_⟩
  intro name cutoff mtime ht hm
  simp [evaluate, ht, hm]

/-- Witness for C6: a probe failure on an unmarked file with no time
filter is classified SKIP no-metadata. -/
theorem ffprobe_fail_closed_witness :
    evaluate "a.mp3" false none 0 none = Outcome.skip SkipReason.noMetadata :=
  ffprobe_fail_closed.2.2.2.2.2 "a.mp3" none 0 rfl (by decide)

/-- C7 counterexample: the SKIP row produced when a derived sibling
exists has action SKIP but carries the empty string, not the literal
string "skip", in its bitrate field. -/
theorem csv_skip_row_bitrate_empty :
    (rowOf "a.mp3" (Outcome.skip SkipReason.reducedVersionExists)).action =
        "SKIP" ∧
    (rowOf "a.mp3" (Outcome.skip SkipReason.reducedVersionExists)).bitrate =
        "" ∧
    (rowOf "a.mp3"
        (Outcome.skip SkipReason.reducedVersionExists)).bitrate ≠ "skip" :=
  ⟨rfl, rfl, by decide⟩

/-- Every character that the decimal spelling loop prepends is a digit
character, or was already in the accumulator. -/
lemma mem_toDigitsCore (f : ℕ) :
    ∀ (n : ℕ) (l : List Char), ∀ c ∈ Nat.toDigitsCore 10 f n l,
      c ∈ l ∨ c ∈ ['0', '1', '2', '3', '4', '5', '6', '7', '8', '9'] := by
  have hdigit : ∀ m : ℕ, m < 10 →
      Nat.digitChar m ∈ ['0', '1', '2', '3', '4', '5', '6', '7', '8', '9'] := by
    decide
  induction f with
  | zero =>
    intro n l c hc
    exact Or.inl hc
  | succ f ih =>
    intro n l c hc
    simp only [Nat.toDigitsCore] at hc
    by_cases h0 : n / 10 = 0
    · rw [if_pos h0] at hc
      rcases List.mem_cons.mp hc with h | h
      · subst h
        exact Or.inr (hdigit (n % 10) (Nat.mod_lt n (by norm_num)))
      · exact Or.inl h
    · rw [if_neg h0] at hc
      rcases ih (n / 10) (Nat.digitChar (n % 10) :: l) c hc with h | h
      · rcases List.mem_cons.mp h with h1 | h1
        · subst h1
          exact Or.inr (hdigit (n % 10) (Nat.mod_lt n (by norm_num)))
        · exact Or.inl h1
      · exact Or.inr h

/-- Every character of the decimal spelling of a natural number is a
digit character. -/
lemma natRepr_char_mem (n : ℕ) (c : Char) (hc : c ∈ (Nat.repr n).data) :
    c ∈ ['0', '1', '2', '3', '4', '5', '6', '7', '8', '9'] := by
  have hd : (Nat.repr n).data = Nat.toDigitsCore 10 (n + 1) n [] := rfl
  rw [hd] at hc
  rcases mem_toDigitsCore (n + 1) n [] c hc with h | h
  · cases h
  · exact h

/-- The decimal spelling of a natural number is never the word skip. -/
lemma natRepr_ne_skip (n : ℕ) : Nat.repr n ≠ "skip" := by
  intro h
  have hs : ('s' : Char) ∈ (Nat.repr n).data := by
    rw [h]
    decide
  exact absurd (natRepr_char_mem n 's' hs) (by decide)

/-- The decimal spelling of an integer is never the word skip. -/
lemma intToString_ne_skip (b : ℤ) : toString b ≠ "skip" := by
  cases b with
  | ofNat m => exact natRepr_ne_skip m
  | negSucc m =>
    intro h
    have hd : '-' :: (Nat.repr (m + 1)).data = ['s', 'k', 'i', 'p'] :=
      congrArg String.data h
    injection hd with h1 h2
    exact absurd h1 (by decide)

/-- C7 amended: on every SKIP row the three estimate fields — estimated
size, savings bytes, savings percent — are the literal string "skip" and
the bitrate and size fields never are; the bitrate and size fields are
the empty string on the four pre-probe skip rows and the decimal
spellings of the probed numbers on the three post-probe skip rows; on
non-SKIP rows (PASS and REDUCE) the savings percent field is a
two-decimal string, and the REDUCE fallback row records the result's
numeric savings bytes. -/
theorem csv_skip_fields (name : String) (o : Outcome) :
    ((rowOf name o).action = "SKIP" →
      (rowOf name o).estimated_size_bytes = "skip" ∧
      (rowOf name o).savings_bytes = "skip" ∧
      (rowOf name o).savings_percent = "skip" ∧
      (rowOf name o).bitrate ≠ "skip" ∧
      (rowOf name o).size_bytes ≠ "skip") ∧
    ((rowOf name (Outcome.skip SkipReason.reducedVersionExists)).bitrate = ""
      ∧ (rowOf name (Outcome.skip SkipReason.reducedVersionExists)).size_bytes
        = "") ∧
    ((rowOf name (Outcome.skip SkipReason.outsideTimeWindow)).bitrate = ""
      ∧ (rowOf name (Outcome.skip SkipReason.outsideTimeWindow)).size_bytes
        = "") ∧
    ((rowOf name (Outcome.skip SkipReason.alreadyReduced)).bitrate = ""
      ∧ (rowOf name (Outcome.skip SkipReason.alreadyReduced)).size_bytes
        = "") ∧
    ((rowOf name (Outcome.skip SkipReason.noMetadata)).bitrate = ""
      ∧ (rowOf name (Outcome.skip SkipReason.noMetadata)).size_bytes = "") ∧
    (∀ b s : ℤ,
      (rowOf name
          (Outcome.skip (SkipReason.alreadyAtOrBelowTarget b s))).bitrate =
        toString b ∧
      (rowOf name
          (Outcome.skip (SkipReason.alreadyAtOrBelowTarget b s))).size_bytes =
        toString s) ∧
    (∀ b s : ℤ,
      (rowOf name (Outcome.skip (SkipReason.wouldNotShrink b s))).bitrate =
        toString b ∧
      (rowOf name (Outcome.skip (SkipReason.wouldNotShrink b s))).size_bytes =
        toString s) ∧
    (∀ (b s : ℤ) (p : ℚ),
      (rowOf name (Outcome.skip (SkipReason.belowThreshold b s p))).bitrate =
        toString b ∧
      (rowOf name
          (Outcome.skip (SkipReason.belowThreshold b s p))).size_bytes =
        toString s) ∧
    (∀ (b s est sav : ℤ) (p : ℚ),
      (rowOf name (Outcome.pass b s est sav p)).savings_percent = fmt2 p ∧
      (rowOf name (Outcome.pass b s est sav p)).action = "PASS") ∧
    (∀ (fn : String) (i : Option (ℤ × ℤ × ℤ × ℤ × ℚ)) (sv : ℤ) (rp : ℚ),
      (reduceRow fn i sv rp).action = "REDUCE" ∧
      ∃ q : ℚ, (reduceRow fn i sv rp).savings_percent = fmt2 q) ∧
    (∀ (fn : String) (sv : ℤ) (rp : ℚ),
      (reduceRow fn none sv rp).savings_bytes = toString sv) ∧
    (∀ q : ℚ, ∃ a b2 : String,
      fmt2 q = a ++ "." ++ b2 ∧ b2.length = 2) := by
  have hne : ("" : String) ≠ "skip" := by decide
  refine ⟨?_, ⟨rfl, rfl⟩, ⟨rfl, rfl⟩, ⟨rfl, rfl⟩, ⟨rfl, rfl⟩,
    fun b s => ⟨rfl, rfl⟩, fun b s => ⟨rfl, rfl⟩, fun b s p => ⟨rfl, rfl⟩,
    fun b s est sav p => ⟨rfl, rfl⟩, ?_, fun fn sv rp => rfl, ?_⟩
  · cases o with
    | pass b s est sav p =>
      intro h
      simp [rowOf] at h
    | skip r =>
      cases r with
      | reducedVersionExists =>
        exact fun _ => ⟨rfl, rfl, rfl, hne, hne⟩
      | outsideTimeWindow =>
        exact fun _ => ⟨rfl, rfl, rfl, hne, hne⟩
      | alreadyReduced =>
        exact fun _ => ⟨rfl, rfl, rfl, hne, hne⟩
      | noMetadata =>
        exact fun _ => ⟨rfl, rfl, rfl, hne, hne⟩
      | alreadyAtOrBelowTarget b s =>
        exact fun _ =>
          ⟨rfl, rfl, rfl, intToString_ne_skip b, intToString_ne_skip s⟩
      | wouldNotShrink b s =>
        exact fun _ =>
          ⟨rfl, rfl, rfl, intToString_ne_skip b, intToString_ne_skip s⟩
      | belowThreshold b s p =>
        exact fun _ =>
          ⟨rfl, rfl, rfl, intToString_ne_skip b, intToString_ne_skip s⟩
  · intro fn i sv rp
    refine ⟨?_, ?_⟩
    · cases i with
      | none => rfl
      | some v =>
        obtain ⟨b, s, est, sav, p⟩ := v
        rfl
    · cases i with
      | none => exact ⟨rp, rfl⟩
      | some v =>
        obtain ⟨b, s, est, sav, p⟩ := v
        exact ⟨p, rfl⟩
  · intro q
    exact ⟨toString (roundHalfEven (q * 100) / 100),
      twoDigits (roundHalfEven (q * 100) % 100).toNat, rfl, rfl⟩

/-- Witness for C7 amended: the no-metadata SKIP row has the literal
string "skip" in all three estimate fields and in neither of the
bitrate and size fields. -/
theorem csv_skip_fields_witness :
    (rowOf "a.mp3" (Outcome.skip SkipReason.noMetadata)).estimated_size_bytes =
        "skip" ∧
    (rowOf "a.mp3" (Outcome.skip SkipReason.noMetadata)).savings_bytes =
        "skip" ∧
    (rowOf "a.mp3" (Outcome.skip SkipReason.noMetadata)).savings_percent =
        "skip" ∧
    (rowOf "a.mp3" (Outcome.skip SkipReason.noMetadata)).bitrate ≠ "skip" ∧
    (rowOf "a.mp3" (Outcome.skip SkipReason.noMetadata)).size_bytes ≠
        "skip" :=
  (csv_skip_fields "a.mp3" (Outcome.skip SkipReason.noMetadata)).1 rfl

/-- C8 counterexample: with both tools found but the chosen directory
missing, the run also terminates before any scanning begins — and not
through the missing-tools branch — so the missing-tools condition is not
the only error class that terminates the run. -/
theorem dir_missing_terminates :
    mainSetup true false = RunOutcome.dirNotFound ∧
    RunOutcome.dirNotFound ≠ RunOutcome.proceeded ∧
    RunOutcome.dirNotFound ≠ RunOutcome.envError :=
  ⟨rfl, by decide, by decide⟩

/-- C8 amended: a missing ffmpeg or ffprobe terminates the run before any
scanning begins; a missing scan directory is a second condition that
terminates before scanning; within the scan, every file receives exactly
one classification (per-file probe errors are contained as SKIP). -/
theorem setup_errors :
    (∀ d : Bool, mainSetup false d = RunOutcome.envError) ∧
    mainSetup true true = RunOutcome.proceeded ∧
    mainSetup true false = RunOutcome.dirNotFound ∧
    (∀ (name : String) (sib : Bool) (cutoff : Option ℚ) (mtime : ℚ)
        (probe : Option ProbeInfo),
      (evaluate name sib cutoff mtime probe).isPass = true ∨
      ∃ r, evaluate name sib cutoff mtime probe = Outcome.skip r) := by
  refine ⟨fun d => rfl, rfl, rfl, ?_⟩
  intro name sib cutoff mtime probe
  cases hE : evaluate name sib cutoff mtime probe with
  | pass b s est sav p => exact Or.inl rfl
  | skip r => exact Or.inr ⟨r, rfl⟩

/-- C9: write_csv returns before creating or writing any file when the
accumulated row list is empty — no header-only CSV is produced — and
writes a file exactly when there is at least one row. -/
theorem write_csv_empty :
    write_csv [] = none ∧
    ∀ rows : List CsvRow, write_csv rows = none ↔ rows = [] := by
  constructor
  · rfl
  · intro rows
    cases rows <;> simp [write_csv]

/-- C10: the already-reduced marker test is a case-insensitive substring
match — the name mix_REDUCED_v2.mp3 carries it — and any file whose name
carries the marker is, once the sibling and time-window rules do not
fire, classified SKIP already-reduced, and is never classified PASS
regardless of its probe result. -/
theorem marker_skip_case_insensitive :
    containsMarker "mix_REDUCED_v2.mp3" = true ∧
    (∀ (name : String) (cutoff : Option ℚ) (mtime : ℚ)
        (probe : Option ProbeInfo),
      containsMarker name = true → timeMatch cutoff mtime = false →
      evaluate name false cutoff mtime probe =
        Outcome.skip SkipReason.alreadyReduced) ∧
    (∀ (name : String) (sib : Bool) (cutoff : Option ℚ) (mtime : ℚ)
        (probe : Option ProbeInfo),
      containsMarker name = true →
      (evaluate name sib cutoff mtime probe).isPass = false) := by
  refine ⟨by decide, ?_, ?_⟩
  · intro name cutoff mtime probe hm ht
    simp [evaluate, hm, ht]
  · intro name sib cutoff mtime probe hm
    cases sib with
    | true => simp [evaluate, Outcome.isPass]
    | false =>
      rcases Bool.eq_false_or_eq_true (timeMatch cutoff mtime) with ht | ht <;>
        simp [evaluate, ht, hm, Outcome.isPass]

/-- Witness for C10: the mixed-case marker file with a 320 kbps probe
result is not classified PASS. -/
theorem marker_skip_case_insensitive_witness :
    (evaluate "mix_REDUCED_v2.mp3" false none 0
        (some { bitrate := 320000, duration := 180, size := 5000000 })).isPass =
      false :=
  marker_skip_case_insensitive.2.2 "mix_REDUCED_v2.mp3" false none 0
    (some { bitrate := 320000, duration := 180, size := 5000000 }) (by decide)

end Mp3Reduce
